import Mathlib

/-
Shallow embedding of the etl expression-evaluation fragment:
complex arithmetic (include/etl/complex.hpp), the dyn_matrix_view
reshape view and its coherency and visitor protocol
(include/etl/op/dyn_matrix_view.hpp), the egblas kernel wrappers
(include/etl/impl/egblas/apxdbpy_3.hpp and the softplus wrappers),
and the max-pool scenario from test/src/max_pool_3d.cpp.
-/

namespace Etl

/- Section 1: etl::complex (include/etl/complex.hpp). -/

structure complex (α : Type) where
  real : α
  imag : α
  deriving Repr, DecidableEq

/-- Compound assignment operator of etl::complex, lines 67 to 76 of
complex.hpp: ac = real*rhs.real, bd = imag*rhs.imag, bc = imag*rhs.real,
ad = real*rhs.imag; result has real = ac - bd and imag = bc + ad. -/
def complex.mulAssign [Mul α] [Add α] [Sub α] (self rhs : complex α) : complex α :=
  let ac := self.real * rhs.real
  let bd := self.imag * rhs.imag
  let bc := self.imag * rhs.real
  let ad := self.real * rhs.imag
  { real := ac - bd, imag := bc + ad }

/-- Binary product operator of etl::complex, lines 117 to 126 of
complex.hpp: same four products, result real = ac - bd, imag = bc + ad. -/
def complex.mul [Mul α] [Add α] [Sub α] (lhs rhs : complex α) : complex α :=
  let ac := lhs.real * rhs.real
  let bd := lhs.imag * rhs.imag
  let bc := lhs.imag * rhs.real
  let ad := lhs.real * rhs.imag
  { real := ac - bd, imag := bc + ad }

/- Section 2: the device-capable value container and its coherency
operations. The container implementation itself is not among the shown
sources; dyn_matrix_view forwards every coherency call to it
(dyn_matrix_view.hpp lines 675 to 745). -/

/-- Modelled from the spec: per-container coherency state of section 4.1,
a host buffer, an optional device buffer, and the two validity flags.
The container implementation is missing from the shown sources. -/
structure Container (α : Type) where
  cpu : List α
  gpu : Option (List α)
  cpu_valid : Bool
  gpu_valid : Bool
  deriving Repr, DecidableEq

/-- Modelled from the spec: the DeviceValid-only coherency state, in
which only the device copy is authoritative. -/
def Container.deviceOnlyValid (c : Container α) : Bool :=
  c.gpu_valid && !c.cpu_valid

/-- Modelled from the spec: ensure-host-current of section 4.1 — if
DeviceValid only, copy the device buffer to the host and transition to
BothValid; otherwise a no-op. -/
def Container.ensure_cpu_up_to_date (c : Container α) : Container α :=
  if c.deviceOnlyValid then
    { c with cpu := c.gpu.getD c.cpu, cpu_valid := true }
  else
    c

/-- Modelled from the spec: number of device-to-host copies one
ensure-host-current call performs (one in the DeviceValid-only state,
zero otherwise). -/
def Container.ensure_cpu_copies (c : Container α) : Nat :=
  if c.deviceOnlyValid then 1 else 0

/-- Modelled from the spec: flat element read on the container itself —
ensure the host copy is current, then read the host buffer. -/
def Container.readFlat (c : Container α) (i : Nat) : Option α :=
  (c.ensure_cpu_up_to_date).cpu[i]?

/- Section 3: dyn_matrix_view. Both specializations store the sub
expression, a dimension array of arity D, and a size copied from the
referent (dyn_matrix_view.hpp lines 61 to 63 and 344 to 348). -/

structure dyn_matrix_view (σ : Type) where
  sub : σ
  dimensions : List Nat
  _size : Nat
  deriving Repr, DecidableEq

/-- Constructor of dyn_matrix_view (lines 74 to 76 and 359 to 366):
store the sub expression, store the supplied dimensions unchecked, and
copy the size from the referent via etl::size(sub), abstracted here as
the function subSize. -/
def dyn_matrix_view.mk_view (subSize : σ → Nat) (sub : σ) (dims : List Nat) :
    dyn_matrix_view σ :=
  { sub := sub, dimensions := dims, _size := subSize sub }

/-- etl_traits size for dyn_matrix_view (lines 796 to 798): return the
stored _size field. -/
def etl_traits_size (v : dyn_matrix_view σ) : Nat :=
  v._size

/-- etl_traits dim for dyn_matrix_view (lines 806 to 808): return the
stored dimension d. -/
def etl_traits_dim (v : dyn_matrix_view σ) (d : Nat) : Nat :=
  v.dimensions.getD d 0

/-- Alias test of dyn_matrix_view, identical in both specializations
(lines 208 to 211 and 530 to 533): forward the test to the alias method
of the sub expression, abstracted here as the function subAlias. -/
def dyn_matrix_view.aliasTest (subAlias : σ → ρ → Bool) (v : dyn_matrix_view σ)
    (rhs : ρ) : Bool :=
  subAlias v.sub rhs

/-- Direct-memory specialization of dyn_matrix_view over a container
referent (lines 359 to 366): a container does not need the evaluator
visitor, so the constructor caches memory = sub.memory_start(), the
start of the host buffer of the referent; the size is the element count
of the referent. -/
def mk_dyn_matrix_view_dma (sub : Container α) (dims : List Nat) :
    dyn_matrix_view (Container α) :=
  dyn_matrix_view.mk_view (fun c => c.cpu.length) sub dims

/-- Flat read through the const bracket operator of the direct-memory
specialization (lines 373 to 376): call ensure_cpu_up_to_date, which the
view forwards to the referent (lines 719 to 721), then dereference the
cached pointer at offset j. The cached pointer aliases the host buffer
of the referent, so the read observes the referent host buffer as left
by the ensure call. -/
def dyn_matrix_view.getFlat (v : dyn_matrix_view (Container α)) (j : Nat) :
    Option α :=
  (v.sub.ensure_cpu_up_to_date).cpu[j]?

/- Section 4: coherency calls performed by each element-access member of
the direct-memory specialization (dyn_matrix_view.hpp lines 373 to 523),
in program order. -/

inductive CohCall where
  | ensureCpu
  | invalidateGpu
  deriving Repr, DecidableEq, BEq

inductive DmaAccessPath where
  | bracketConst
  | bracketMut
  | paren1Const
  | paren1Mut
  | readFlat
  | parenMultiConst
  | parenMultiMut
  | load
  | loadu
  | stream
  | store
  | storeu
  deriving Repr, DecidableEq

/-- Coherency operations each access member of the direct-memory
specialization performs before touching memory, read off the source:
const bracket operator line 374, mutable bracket operator lines 384 and
385, const paren operator line 396, mutable paren operator lines 407 and
408, read_flat line 419, const multi-index paren operator line 432,
mutable multi-index paren operator lines 445 and 446; load line 478,
loadu line 489, stream line 500, storeu line 522 dereference the cached
pointer directly with no coherency call, and store line 511 delegates to
the sub expression with no coherency call. -/
def cohCalls : DmaAccessPath → List CohCall
  | DmaAccessPath.bracketConst => [CohCall.ensureCpu]
  | DmaAccessPath.bracketMut => [CohCall.ensureCpu, CohCall.invalidateGpu]
  | DmaAccessPath.paren1Const => [CohCall.ensureCpu]
  | DmaAccessPath.paren1Mut => [CohCall.ensureCpu, CohCall.invalidateGpu]
  | DmaAccessPath.readFlat => [CohCall.ensureCpu]
  | DmaAccessPath.parenMultiConst => [CohCall.ensureCpu]
  | DmaAccessPath.parenMultiMut => [CohCall.ensureCpu, CohCall.invalidateGpu]
  | DmaAccessPath.load => []
  | DmaAccessPath.loadu => []
  | DmaAccessPath.stream => []
  | DmaAccessPath.store => []
  | DmaAccessPath.storeu => []

/-- Whether the access member writes elements through the view. -/
def isMutating : DmaAccessPath → Bool
  | DmaAccessPath.bracketMut => true
  | DmaAccessPath.paren1Mut => true
  | DmaAccessPath.parenMultiMut => true
  | DmaAccessPath.stream => true
  | DmaAccessPath.store => true
  | DmaAccessPath.storeu => true
  | _ => false

/-- Whether the member body dereferences the cached memory pointer of
the view; every access member does except store (line 511), which
delegates to the store method of the sub expression. -/
def touchesCachedMemory : DmaAccessPath → Bool
  | DmaAccessPath.store => false
  | _ => true

/-- Whether the member is one of the scalar element accessors (bracket
operator, paren operator, read_flat) as opposed to the vectorized
load/store members. -/
def isScalarAccess : DmaAccessPath → Bool
  | DmaAccessPath.bracketConst => true
  | DmaAccessPath.bracketMut => true
  | DmaAccessPath.paren1Const => true
  | DmaAccessPath.paren1Mut => true
  | DmaAccessPath.readFlat => true
  | DmaAccessPath.parenMultiConst => true
  | DmaAccessPath.parenMultiMut => true
  | _ => false

/-- First coherency call of the member is ensure_cpu_up_to_date. -/
def ensuresFirst (p : DmaAccessPath) : Bool :=
  match (cohCalls p).head? with
  | some CohCall.ensureCpu => true
  | _ => false

/-- The member calls invalidate_gpu at some point. -/
def callsInvalidateGpu (p : DmaAccessPath) : Bool :=
  (cohCalls p).contains CohCall.invalidateGpu

/-- The coherency discipline the claim asserts of an access path: if it
touches memory through the cached pointer then it ensures the host copy
first, and if it also mutates then it invalidates the device copy. -/
def claimedDiscipline (p : DmaAccessPath) : Bool :=
  !(touchesCachedMemory p) || (ensuresFirst p && (!(isMutating p) || callsInvalidateGpu p))

/-- The discipline the source actually implements: every scalar element
accessor ensures the host copy first and, when mutating, performs
exactly ensure then invalidate; the vectorized members perform no
coherency call of their own. -/
def amendedDiscipline (p : DmaAccessPath) : Bool :=
  if isScalarAccess p then
    ensuresFirst p &&
      (!(isMutating p) || cohCalls p == [CohCall.ensureCpu, CohCall.invalidateGpu])
  else
    (cohCalls p).isEmpty

/- Section 5: the visitor protocol of dyn_matrix_view. -/

/-- Evaluator visitor state: the need_value flag plus whatever other
pass state the visitor carries, abstracted as psi. -/
structure evaluator_visitor (ψ : Type) where
  need_value : Bool
  passState : ψ
  deriving Repr, DecidableEq

/-- Visitor state the view hands to its sub expression during the
evaluator pass: the incoming visitor with need_value set to true
(lines 292 and 293, identically lines 651 and 652). -/
def evaluatorSubInput (vis : evaluator_visitor ψ) : evaluator_visitor ψ :=
  { vis with need_value := true }

/-- visit(evaluator_visitor) of dyn_matrix_view, identical in both
specializations (lines 291 to 296 and 650 to 655): save need_value, set
it to true, visit the sub expression (abstracted as the state function
visitSub), then restore the saved value. -/
def visit_evaluator (visitSub : evaluator_visitor ψ → evaluator_visitor ψ)
    (vis : evaluator_visitor ψ) : evaluator_visitor ψ :=
  let old_need_value := vis.need_value
  let vis2 := visitSub (evaluatorSubInput vis)
  { vis2 with need_value := old_need_value }

/-- State of the direct-memory specialization relevant to the
back-propagation pass: the sub expression state and the cached memory
pointer (none models nullptr). -/
structure dma_view_state (σ π : Type) where
  subState : σ
  memory : Option π
  deriving Repr, DecidableEq

/-- Constructor of the direct-memory specialization (lines 359 to 366):
cache memory_start of the sub expression when the sub expression does
not need the evaluator visitor, nullptr otherwise. needsEV abstracts
decay_traits of the sub type needs_evaluator_visitor, memStart the
memory_start method. -/
def mk_dma_view (needsEV : Bool) (memStart : σ → π) (sub : σ) :
    dma_view_state σ π :=
  if needsEV then
    { subState := sub, memory := none }
  else
    { subState := sub, memory := some (memStart sub) }

/-- visit(back_propagate_visitor) of the direct-memory specialization
(lines 637 to 644): visit the sub expression first, then, only when the
sub expression needs the evaluator visitor, re-read its memory_start
into the cached pointer. -/
def visit_back_propagate (needsEV : Bool) (visitSub : σ → σ) (memStart : σ → π)
    (v : dma_view_state σ π) : dma_view_state σ π :=
  let subState2 := visitSub v.subState
  if needsEV then
    { subState := subState2, memory := some (memStart subState2) }
  else
    { subState := subState2, memory := v.memory }

/- Section 6: egblas kernel wrappers (impl/egblas/apxdbpy_3.hpp and the
softplus wrappers). Each wrapper either invokes the vendor kernel or is
a hard failure (cpp_unreachable), selected by the build-time macro,
modelled as a Bool parameter threaded through both the availability flag
and the wrapper. -/

inductive KernelResult (α : Type) where
  | vendorCall (args : α)
  | hardFailure (msg : String)
  deriving Repr, DecidableEq

/-- has_ssoftplus: true exactly when the build defines
EGBLAS_HAS_SSOFTPLUS (softplus wrapper file lines 27 to 32). -/
def has_ssoftplus (egblasHasSSoftplus : Bool) : Bool :=
  egblasHasSSoftplus

/-- Single-precision egblas softplus wrapper (softplus wrapper file
lines 42 to 57): under EGBLAS_HAS_SSOFTPLUS invoke egblas_ssoftplus with
the given arguments, otherwise cpp_unreachable, a hard failure that
never returns a value. -/
def softplus (egblasHasSSoftplus : Bool) (args : α) : KernelResult α :=
  if egblasHasSSoftplus then
    KernelResult.vendorCall args
  else
    KernelResult.hardFailure "Invalid call to egblas::softplus"

/-- has_sapxdbpy_3: true exactly when the build defines
EGBLAS_HAS_SAPXDBPY_3 (apxdbpy_3.hpp lines 25 to 29). -/
def has_sapxdbpy_3 (egblasHasSapxdbpy3 : Bool) : Bool :=
  egblasHasSapxdbpy3

/-- Single-precision egblas apxdbpy_3 wrapper (apxdbpy_3.hpp lines 40 to
57): under EGBLAS_HAS_SAPXDBPY_3 invoke egblas_sapxdbpy_3 with the given
arguments, otherwise cpp_unreachable, a hard failure that never returns
a value. -/
def apxdbpy_3 (egblasHasSapxdbpy3 : Bool) (args : α) : KernelResult α :=
  if egblasHasSapxdbpy3 then
    KernelResult.vendorCall args
  else
    KernelResult.hardFailure "Invalid call to egblas::apxdbpy_3"

/- Section 7: the max-pool scenario of test/src/max_pool_3d.cpp. -/

/-- Modelled from the spec: the max_pool_3d kernel implementation is not
among the shown sources, only its tests; section 8 of the spec describes
it as a max-selection with window equal to stride. This lists the input
elements in the window of output coordinate (i, j, k) for window sizes
(c1, c2, c3) and stride equal to the window. -/
def windowValues (a : Nat → Nat → Nat → Nat) (c1 c2 c3 i j k : Nat) : List Nat :=
  (List.range c1).flatMap (fun ii =>
    (List.range c2).flatMap (fun jj =>
      (List.range c3).map (fun kk =>
        a (i * c1 + ii) (j * c2 + jj) (k * c3 + kk))))

/-- Modelled from the spec: 3D max pooling with window (c1, c2, c3) and
stride equal to the window; output element (i, j, k) is the maximum of
the input over its window. -/
def max_pool_3d (a : Nat → Nat → Nat → Nat) (c1 c2 c3 i j k : Nat) : Nat :=
  (windowValues a c1 c2 c3 i j k).foldl max 0

/-- The scenario input of test max3/1: a 2 by 4 by 4 tensor filled
row-major with the values 1 to 32. -/
def pool_input (i j k : Nat) : Nat :=
  16 * i + 4 * j + k + 1

/- Theorems. -/

/-- C1, counterexample: the load member of the direct-memory
specialization dereferences the cached memory pointer (line 478) yet
performs no ensure_cpu_up_to_date call first, so the claimed coherency
discipline fails on the load access path. -/
theorem C1_load_breaks_claimed_discipline :
    touchesCachedMemory DmaAccessPath.load = true ∧
    claimedDiscipline DmaAccessPath.load = false := by
  decide

/-- C1, amended: in the direct-memory specialization every scalar
element accessor (bracket operator, paren operator, read_flat) performs
ensure_cpu_up_to_date first and, when mutating, exactly ensure followed
by invalidate_gpu, while the vectorized members (load, loadu, stream,
store, storeu) perform no coherency call of their own. -/
theorem C1_dma_access_coherency :
    ∀ p : DmaAccessPath, amendedDiscipline p = true := by
  intro p
  cases p <;> decide

/-- C2: for a view built by the direct-memory specialization over a
container with shape-preserving dimensions, flat read through the view
at any valid index equals the flat read on the container itself. -/
theorem C2_reshape_flat_access_eq (α : Type) (c : Container α)
    (dims : List Nat) (i : Nat) (hshape : dims.prod = c.cpu.length)
    (hi : i < c.cpu.length) :
    (mk_dyn_matrix_view_dma c dims).getFlat i = c.readFlat i :=
  rfl

/-- C2, witness at a concrete two-element container reshaped to 2 by 1,
index 1. -/
theorem C2_reshape_flat_access_eq_witness :
    ([2, 1] : List Nat).prod = (Container.mk ([5, 7] : List Nat) none true false).cpu.length ∧
    1 < (Container.mk ([5, 7] : List Nat) none true false).cpu.length ∧
    (mk_dyn_matrix_view_dma (Container.mk ([5, 7] : List Nat) none true false) [2, 1]).getFlat 1
      = (Container.mk ([5, 7] : List Nat) none true false).readFlat 1 :=
  ⟨by decide, by decide,
    C2_reshape_flat_access_eq Nat (Container.mk [5, 7] none true false) [2, 1] 1
      (by decide) (by decide)⟩

/-- C3: the 2 by 2 by 2 max pooling with stride equal to window over the
2 by 4 by 4 tensor filled row-major with 1 to 32 yields 22, 24, 30, 32
at output positions (0,0,0), (0,0,1), (0,1,0), (0,1,1). -/
theorem C3_max_pool_scenario :
    max_pool_3d pool_input 2 2 2 0 0 0 = 22 ∧
    max_pool_3d pool_input 2 2 2 0 0 1 = 24 ∧
    max_pool_3d pool_input 2 2 2 0 1 0 = 30 ∧
    max_pool_3d pool_input 2 2 2 0 1 1 = 32 := by
  decide

/-- C4: when the sub expression needs the evaluator visitor, the
back-propagation visit of the direct-memory specialization visits the
sub expression and then leaves the cached memory pointer equal to the
memory_start of the visited (materialized) sub expression. -/
theorem C4_back_propagate_relinks_memory (σ π : Type) (visitSub : σ → σ)
    (memStart : σ → π) (needsEV : Bool) (v : dma_view_state σ π)
    (h : needsEV = true) :
    (visit_back_propagate needsEV visitSub memStart v).memory
      = some (memStart ((visit_back_propagate needsEV visitSub memStart v).subState)) ∧
    (visit_back_propagate needsEV visitSub memStart v).subState = visitSub v.subState := by
  subst h
  exact ⟨rfl, rfl⟩

/-- C4, witness with a Nat sub state whose visit is the successor
function and whose memory_start is the identity. -/
theorem C4_back_propagate_relinks_memory_witness :
    (visit_back_propagate true Nat.succ (fun s => s) (dma_view_state.mk 0 none)).memory
      = some 1 ∧
    (visit_back_propagate true Nat.succ (fun s => s) (dma_view_state.mk 0 none)).subState
      = 1 :=
  C4_back_propagate_relinks_memory Nat Nat Nat.succ (fun s => s) true
    (dma_view_state.mk 0 none) rfl

/-- C5: the alias test of dyn_matrix_view returns exactly the alias test
of its referent applied to the same right-hand side. -/
theorem C5_alias_pass_through (σ ρ : Type) (subAlias : σ → ρ → Bool)
    (v : dyn_matrix_view σ) (rhs : ρ) :
    dyn_matrix_view.aliasTest subAlias v rhs = subAlias v.sub rhs :=
  rfl

/-- C6: during the evaluator pass the view hands its sub expression a
visitor whose need_value flag is true, and after the sub visit returns
the flag is restored to exactly its prior value, whatever the sub visit
did to it. -/
theorem C6_evaluator_need_value_frame (ψ : Type)
    (visitSub : evaluator_visitor ψ → evaluator_visitor ψ)
    (vis : evaluator_visitor ψ) :
    (evaluatorSubInput vis).need_value = true ∧
    (visit_evaluator visitSub vis).need_value = vis.need_value :=
  ⟨rfl, rfl⟩

/-- C7: ensure-host-current is idempotent — a second call right after a
first changes nothing and performs zero further device-to-host copies,
and on any state that is not device-only-valid the call is a no-op. -/
theorem C7_ensure_cpu_idempotent (α : Type) (c : Container α) :
    (c.ensure_cpu_up_to_date).ensure_cpu_up_to_date = c.ensure_cpu_up_to_date ∧
    (c.ensure_cpu_up_to_date).ensure_cpu_copies = 0 ∧
    (c.deviceOnlyValid = false → c.ensure_cpu_up_to_date = c) := by
  unfold Container.ensure_cpu_up_to_date Container.ensure_cpu_copies
    Container.deviceOnlyValid
  by_cases h : (c.gpu_valid && !c.cpu_valid) = true <;> simp [h]

/-- C7, witness at a concrete host-valid container, discharging the
not-device-only-valid hypothesis of the no-op clause. -/
theorem C7_ensure_cpu_idempotent_witness :
    Container.ensure_cpu_up_to_date (Container.mk ([3] : List Nat) none true false)
      = Container.mk ([3] : List Nat) none true false :=
  (C7_ensure_cpu_idempotent Nat (Container.mk [3] none true false)).2.2 rfl

/-- C8: when the availability flag of a precision and operation
combination is false the egblas wrapper is a hard failure and never
yields a vendor call, and when the flag is true the wrapper invokes the
vendor kernel with the given arguments, for both the softplus and the
apxdbpy_3 single-precision wrappers. -/
theorem C8_kernel_capability_gate (α : Type) (args : α) :
    (has_ssoftplus false = false ∧
      softplus false args = KernelResult.hardFailure "Invalid call to egblas::softplus") ∧
    (has_ssoftplus true = true ∧
      softplus true args = KernelResult.vendorCall args) ∧
    (has_sapxdbpy_3 false = false ∧
      apxdbpy_3 false args = KernelResult.hardFailure "Invalid call to egblas::apxdbpy_3") ∧
    (has_sapxdbpy_3 true = true ∧
      apxdbpy_3 true args = KernelResult.vendorCall args) :=
  ⟨⟨rfl, rfl⟩, ⟨rfl, rfl⟩, ⟨rfl, rfl⟩, ⟨rfl, rfl⟩⟩

/-- C9: the constructor of dyn_matrix_view copies its size from the
referent for every supplied dimension list, checked nowhere against the
product of those dimensions, and the traits size returns that stored
size; in particular the direct-memory view over a container always
reports the element count of the container. -/
theorem C9_size_copied_unchecked :
    (∀ (σ : Type) (subSize : σ → Nat) (sub : σ) (dims : List Nat),
      (dyn_matrix_view.mk_view subSize sub dims)._size = subSize sub ∧
      etl_traits_size (dyn_matrix_view.mk_view subSize sub dims) = subSize sub) ∧
    (∀ (α : Type) (c : Container α) (dims : List Nat),
      (mk_dyn_matrix_view_dma c dims)._size = c.cpu.length) :=
  ⟨fun _ _ _ _ => ⟨rfl, rfl⟩, fun _ _ _ => rfl⟩

/-- C10: the compound product assignment of etl::complex computes the
same value as the binary product operator, and both equal the pair with
real part z.real*w.real - z.imag*w.imag and imaginary part
z.imag*w.real + z.real*w.imag. -/
theorem C10_mul_assign_eq_mul (α : Type) [Mul α] [Add α] [Sub α]
    (z w : complex α) :
    complex.mulAssign z w = complex.mul z w ∧
    complex.mul z w
      = complex.mk (z.real * w.real - z.imag * w.imag)
          (z.imag * w.real + z.real * w.imag) :=
  ⟨rfl, rfl⟩

end Etl
